import Mathlib

/-!
Shallow embedding of the Dentalec subject-store gateway.

Two implementation variants exist in the repository:
- variant 1: the Express + Firestore server that keeps a top-level
  collection of subjects, generates subject and file ids on the server,
  appends files with the arrayUnion primitive of the store and removes
  them with arrayRemove;
- variant 2: the server in server.js that keeps per-user subject
  documents as raw JSON, accepts client-supplied ids, and seeds a
  hard-coded sample subject when a listing finds the store empty.

Documents live in a store modelled as an association list from document
key to document value.  Firestore semantics modelled here: get returns
the document at a key when present; set creates or replaces; update
merges the given fields into an existing document (the handlers guard
existence where the code does, and surface a 500 where the code lets
update throw); delete removes the document and succeeds even when the
key is absent; arrayUnion appends an element not already present, by
structural equality; arrayRemove removes every element structurally
equal to the given value.
-/

namespace Dentalec

/-- A file document: id, name and content, as stored inside a subject. -/
structure FileDoc where
  id : String
  name : String
  content : String
deriving DecidableEq, Repr

/-- A subject document of variant 1: id, name and an ordered files list. -/
structure Subject where
  id : String
  name : String
  files : List FileDoc
deriving DecidableEq, Repr

/-- A document store: an association list from document key to value. -/
abbrev StoreOf (α : Type) := List (String × α)

/-- The variant 1 store of subjects. -/
abbrev Store := StoreOf Subject

/-- Fetch the document at a key, none when absent. -/
def getDoc {α : Type} : StoreOf α → String → Option α
  | [], _ => none
  | p :: rest, k => if p.1 == k then some p.2 else getDoc rest k

/-- Create or replace the document at a key. -/
def setDoc {α : Type} : StoreOf α → String → α → StoreOf α
  | [], k, v => [(k, v)]
  | p :: rest, k, v => if p.1 == k then (k, v) :: rest else p :: setDoc rest k v

/-- Remove the document at a key; a no-op when the key is absent. -/
def deleteDoc {α : Type} : StoreOf α → String → StoreOf α
  | [], _ => []
  | p :: rest, k => if p.1 == k then deleteDoc rest k else p :: deleteDoc rest k

/-- Merge an update into the document at a key, leaving other documents
alone.  Callers guard existence exactly where the source code does. -/
def updateField {α : Type} : StoreOf α → String → (α → α) → StoreOf α
  | [], _, _ => []
  | p :: rest, k, f => if p.1 == k then (p.1, f p.2) :: rest else p :: updateField rest k f

/-- Firestore FieldValue.arrayUnion with one element: append it at the
end unless an element structurally equal to it is already present. -/
def arrayUnion (xs : List FileDoc) (v : FileDoc) : List FileDoc :=
  if v ∈ xs then xs else xs ++ [v]

/-- Firestore FieldValue.arrayRemove with one element: remove every
element structurally equal to it. -/
def arrayRemove (xs : List FileDoc) (v : FileDoc) : List FileDoc :=
  xs.filter (fun f => f != v)

/-! Decimal rendering of naturals, the embedding of the JavaScript
Number toString call used to build file ids from a milliseconds
timestamp.  A fuel-indexed digit extractor keeps the definition
structural, so concrete instances evaluate inside the kernel. -/

/-- Base-10 digits of n, least significant first, computed with fuel.
For fuel at least n this is the full digit list; 0 renders to []. -/
def toDigitsRevAux : Nat → Nat → List Nat
  | 0, _ => []
  | _ + 1, 0 => []
  | fuel + 1, n + 1 => ((n + 1) % 10) :: toDigitsRevAux fuel ((n + 1) / 10)

/-- Recombine a least-significant-first digit list into a natural. -/
def ofDigitsRev : List Nat → Nat
  | [] => 0
  | d :: ds => d + 10 * ofDigitsRev ds

/-- Decimal rendering of a natural number, as Number toString does. -/
def natToDecimal (n : Nat) : String :=
  if n = 0 then "0" else String.mk (((toDigitsRevAux n n).reverse).map Nat.digitChar)

/-- Decode a decimal string back to a natural; a left inverse of
natToDecimal, used to prove the rendering injective. -/
def natDecode (s : String) : Nat :=
  ofDigitsRev ((s.data.map (fun c => c.toNat - 48)).reverse)

/-- The server-generated file id: the milliseconds timestamp rendered in
decimal, concatenated with the random suffix drawn for the call. -/
def genFileId (millis : Nat) (rand : String) : String :=
  natToDecimal millis ++ rand

/-- The JavaScript String trim call: drop leading and trailing
whitespace.  Written structurally over the character list so that
concrete instances evaluate inside the kernel. -/
def jsTrim (s : String) : String :=
  String.mk (((s.data.dropWhile Char.isWhitespace).reverse.dropWhile Char.isWhitespace).reverse)

/-! Result shapes of the route handlers: an HTTP status, the store after
the request, and where the route answers with a document, the payload. -/

/-- Result of a handler that returns no document payload. -/
structure OpRes (σ : Type) where
  status : Nat
  store : σ
deriving Repr

/-- Result of a handler that may return a document payload. -/
structure OpResP (σ β : Type) where
  status : Nat
  store : σ
  payload : Option β
deriving Repr

/-- Result of a listing handler: status, listed bodies, store after. -/
structure ListRes (σ β : Type) where
  status : Nat
  body : List β
  store : σ
deriving Repr

/-! JSON values, for the request bodies of both variants and for the
raw documents of variant 2. -/

/-- A JSON value. -/
inductive Json where
  | str (s : String)
  | num (n : Int)
  | bool (b : Bool)
  | null
  | arr (xs : List Json)
  | obj (kvs : List (String × Json))

/-- JavaScript truthiness of a JSON value. -/
def jTruthy : Json → Bool
  | .str s => !(s == "")
  | .num n => !(n == 0)
  | .bool b => b
  | .null => false
  | .arr _ => true
  | .obj _ => true

/-- Truthiness of a possibly missing value; undefined is falsy. -/
def jTruthyOpt : Option Json → Bool
  | none => false
  | some v => jTruthy v

/-- Property access on a JSON value: a field of an object, undefined
otherwise. -/
def getField : Json → String → Option Json
  | .obj kvs, k => (kvs.find? (fun p => p.1 == k)).map (·.2)
  | _, _ => none

/-- Decimal rendering of an integer, as String() applies to a number. -/
def intToDecimal (n : Int) : String :=
  if n < 0 then "-" ++ natToDecimal n.natAbs else natToDecimal n.toNat

/-- The JavaScript String() conversion of a JSON value. -/
def jsString : Json → String
  | .str s => s
  | .num n => intToDecimal n
  | .bool b => if b then "true" else "false"
  | .null => "null"
  | .arr xs => String.intercalate "," (xs.attach.map (fun x => jsString x.1))
  | .obj _ => "[object Object]"
decreasing_by
  have h := List.sizeOf_lt_of_mem x.2
  simp only [Json.arr.sizeOf_spec]
  omega

/-- The document key variant 2 derives from a body: String() applied to
its id property, the text undefined when the property is missing. -/
def docKeyOf (j : Json) : String :=
  match getField j "id" with
  | some v => jsString v
  | none => "undefined"

/-! Variant 1 route handlers (the Express + Firestore server). -/

/-- GET /api/subjects: return every stored subject, order as stored.
It performs no write, so the store comes back unchanged. -/
def listSubjects (s : Store) : ListRes Store Subject :=
  ⟨200, s.map (·.2), s⟩

/-- POST /api/subjects: reject with 400 when the body name is absent,
not a string, or trims to the empty string; otherwise store and return
a new subject with the server-generated document id, the trimmed name
and an empty files list. -/
def createSubject (s : Store) (fresh : String) (name : Option Json) :
    OpResP Store Subject :=
  match name with
  | some (.str nm) =>
    if jsTrim nm == "" then ⟨400, s, none⟩
    else
      let subj : Subject := ⟨fresh, jsTrim nm, []⟩
      ⟨201, setDoc s fresh subj, some subj⟩
  | _ => ⟨400, s, none⟩

/-- PUT /api/subjects/:subjectId: reject with 400 when the body name is
falsy; otherwise update the name field of the stored document.  The
store update throws on a missing document, which the handler surfaces
as a 500 without writing. -/
def renameSubject (s : Store) (subjectId : String) (name : Option String) :
    OpRes Store :=
  match name with
  | none => ⟨400, s⟩
  | some nm =>
    if nm == "" then ⟨400, s⟩
    else
      match getDoc s subjectId with
      | none => ⟨500, s⟩
      | some _ => ⟨200, updateField s subjectId (fun sb => { sb with name := nm })⟩

/-- DELETE /api/subjects/:subjectId: delete the document without any
existence check and answer 200. -/
def deleteSubject (s : Store) (subjectId : String) : OpRes Store :=
  ⟨200, deleteDoc s subjectId⟩

/-- POST /api/subjects/:subjectId/files: reject with 400 when name or
content is falsy, 404 when the subject is absent; otherwise build the
new file with the generated id and arrayUnion it into the stored files
list, answering 201 with the new file. -/
def addFile (s : Store) (subjectId : String) (millis : Nat) (rand : String)
    (name content : Option String) : OpResP Store FileDoc :=
  match name, content with
  | some nm, some ct =>
    if nm == "" || ct == "" then ⟨400, s, none⟩
    else
      match getDoc s subjectId with
      | none => ⟨404, s, none⟩
      | some _ =>
        let nf : FileDoc := ⟨genFileId millis rand, nm, ct⟩
        ⟨201, updateField s subjectId (fun sb => { sb with files := arrayUnion sb.files nf }),
          some nf⟩
  | _, _ => ⟨400, s, none⟩

/-- DELETE /api/subjects/:subjectId/files/:fileId: 404 when the subject
is absent or no stored file carries the id; otherwise arrayRemove the
found entry, by structural equality, from the stored files list. -/
def deleteFile (s : Store) (subjectId fileId : String) : OpRes Store :=
  match getDoc s subjectId with
  | none => ⟨404, s⟩
  | some subj =>
    match subj.files.find? (fun f => f.id == fileId) with
    | none => ⟨404, s⟩
    | some w => ⟨200, updateField s subjectId (fun sb => { sb with files := arrayRemove sb.files w })⟩

/-! Variant 2 route handlers (server.js, raw JSON documents). -/

/-- The hard-coded sample subject server.js seeds on an empty listing:
numeric id 1, name Anatomy, and two files given as name/content pairs. -/
def sampleSubject : Json :=
  .obj [("id", .num 1), ("name", .str "Anatomy"),
    ("files", .arr [
      .obj [("name", .str "Cranial Nerves.txt"),
            ("content", .str "The twelve cranial nerves...")],
      .obj [("name", .str "Muscles of Mastication.txt"),
            ("content", .str "The four primary muscles...")]])]

/-- The initial sample data written when a listing finds no documents. -/
def initialSubjects : List Json := [sampleSubject]

/-- GET /api/subjects, variant 2: when the snapshot is empty, write each
initial subject under String() of its id and return the sample list;
otherwise return the stored documents. -/
def list2 (s : StoreOf Json) : ListRes (StoreOf Json) Json :=
  if s.isEmpty then
    ⟨200, initialSubjects, initialSubjects.foldl (fun st sub => setDoc st (docKeyOf sub) sub) s⟩
  else ⟨200, s.map (·.2), s⟩

/-- POST /api/subjects, variant 2: reject with 400 when the body, its
name property or its id property is falsy; otherwise set the body as
the document keyed by String() of its id and echo it with 201. -/
def create2 (s : StoreOf Json) (body : Json) : OpResP (StoreOf Json) Json :=
  if !(jTruthy body) || !(jTruthyOpt (getField body "name")) || !(jTruthyOpt (getField body "id"))
  then ⟨400, s, none⟩
  else ⟨201, setDoc s (docKeyOf body) body, some body⟩

/-- PUT /api/subjects/:subjectId, variant 2: reject with 400 when the
body is missing or falsy; otherwise replace the document at the path id
with the body and echo it with 200. -/
def put2 (s : StoreOf Json) (subjectId : String) (body : Option Json) :
    OpResP (StoreOf Json) Json :=
  match body with
  | none => ⟨400, s, none⟩
  | some b =>
    if !(jTruthy b) then ⟨400, s, none⟩
    else ⟨200, setDoc s subjectId b, some b⟩

/-- DELETE /api/subjects/:subjectId, variant 2: delete the document
without any existence check and answer 204. -/
def delete2 (s : StoreOf Json) (subjectId : String) : OpRes (StoreOf Json) :=
  ⟨204, deleteDoc s subjectId⟩

/-! Store lemmas. -/

theorem getDoc_setDoc_self {α : Type} (s : StoreOf α) (k : String) (v : α) :
    getDoc (setDoc s k v) k = some v := by
  induction s with
  | nil => simp [setDoc, getDoc]
  | cons p rest ih =>
    by_cases hp : p.1 = k
    · simp [setDoc, getDoc, hp]
    · simp [setDoc, getDoc, hp, ih]

theorem getDoc_setDoc_ne {α : Type} (s : StoreOf α) (k k' : String) (v : α)
    (h : k' ≠ k) : getDoc (setDoc s k v) k' = getDoc s k' := by
  induction s with
  | nil => simp [setDoc, getDoc, Ne.symm h]
  | cons p rest ih =>
    by_cases hp : p.1 = k
    · simp [setDoc, getDoc, hp, Ne.symm h]
    · simp [setDoc, getDoc, hp, ih]

theorem getDoc_deleteDoc_ne {α : Type} (s : StoreOf α) (k k' : String)
    (h : k' ≠ k) : getDoc (deleteDoc s k) k' = getDoc s k' := by
  induction s with
  | nil => simp [deleteDoc, getDoc]
  | cons p rest ih =>
    by_cases hp : p.1 = k
    · simp [deleteDoc, getDoc, hp, Ne.symm h, ih]
    · simp [deleteDoc, getDoc, hp, ih]

theorem deleteDoc_absent {α : Type} (s : StoreOf α) (k : String)
    (h : getDoc s k = none) : deleteDoc s k = s := by
  induction s with
  | nil => simp [deleteDoc]
  | cons p rest ih =>
    by_cases hp : p.1 = k
    · simp [getDoc, hp] at h
    · simp [getDoc, hp] at h
      simp [deleteDoc, hp, ih h]

theorem getDoc_updateField_self {α : Type} (s : StoreOf α) (k : String)
    (f : α → α) (a : α) (h : getDoc s k = some a) :
    getDoc (updateField s k f) k = some (f a) := by
  induction s with
  | nil => simp [getDoc] at h
  | cons p rest ih =>
    by_cases hp : p.1 = k
    · simp [getDoc, hp] at h
      simp [updateField, getDoc, hp, h]
    · simp [getDoc, hp] at h
      simp [updateField, getDoc, hp, ih h]

theorem getDoc_updateField_ne {α : Type} (s : StoreOf α) (k k' : String)
    (f : α → α) (h : k' ≠ k) :
    getDoc (updateField s k f) k' = getDoc s k' := by
  induction s with
  | nil => simp [updateField, getDoc]
  | cons p rest ih =>
    by_cases hp : p.1 = k
    · simp [updateField, getDoc, hp, Ne.symm h]
    · simp [updateField, getDoc, hp, ih]

/-! Decimal rendering lemmas. -/

theorem toDigitsRevAux_lt (fuel : Nat) :
    ∀ (n : Nat), ∀ d ∈ toDigitsRevAux fuel n, d < 10 := by
  induction fuel with
  | zero => intro n d hd; simp [toDigitsRevAux] at hd
  | succ f ih =>
    intro n d hd
    cases n with
    | zero => simp [toDigitsRevAux] at hd
    | succ m =>
      simp only [toDigitsRevAux, List.mem_cons] at hd
      rcases hd with h | h
      · subst h; exact Nat.mod_lt _ (by omega)
      · exact ih _ d h

theorem ofDigitsRev_toDigitsRevAux (fuel : Nat) :
    ∀ (n : Nat), n ≤ fuel → ofDigitsRev (toDigitsRevAux fuel n) = n := by
  induction fuel with
  | zero => intro n hn; interval_cases n; simp [toDigitsRevAux, ofDigitsRev]
  | succ f ih =>
    intro n hn
    cases n with
    | zero => simp [toDigitsRevAux, ofDigitsRev]
    | succ m =>
      have hdiv : (m + 1) / 10 < m + 1 := Nat.div_lt_self (by omega) (by omega)
      have hle : (m + 1) / 10 ≤ f := by omega
      simp only [toDigitsRevAux, ofDigitsRev, ih _ hle]
      omega

theorem digitChar_toNat_sub : ∀ d < 10, (Nat.digitChar d).toNat - 48 = d := by decide

theorem natDecode_natToDecimal (n : Nat) : natDecode (natToDecimal n) = n := by
  by_cases h : n = 0
  · subst h; rfl
  · have hlt := toDigitsRevAux_lt n n
    simp only [natToDecimal, if_neg h, natDecode]
    rw [List.map_map]
    have hmap : ((toDigitsRevAux n n).reverse).map ((fun c => c.toNat - 48) ∘ Nat.digitChar)
        = (toDigitsRevAux n n).reverse := by
      have hcong : ((toDigitsRevAux n n).reverse).map ((fun c => c.toNat - 48) ∘ Nat.digitChar)
          = ((toDigitsRevAux n n).reverse).map id :=
        List.map_congr_left (fun d hd => digitChar_toNat_sub d (hlt d (List.mem_reverse.mp hd)))
      rw [hcong, List.map_id]
    rw [hmap, List.reverse_reverse]
    exact ofDigitsRev_toDigitsRevAux n n le_rfl

theorem natToDecimal_injective : Function.Injective natToDecimal := by
  intro m n h
  calc m = natDecode (natToDecimal m) := (natDecode_natToDecimal m).symm
    _ = natDecode (natToDecimal n) := by rw [h]
    _ = n := natDecode_natToDecimal n

theorem string_eq_of_data (a b : String) (h : a.data = b.data) : a = b := by
  cases a; cases b; exact congrArg String.mk h

theorem string_data_append (a b : String) : (a ++ b).data = a.data ++ b.data := rfl

theorem natToDecimal_ne_empty (n : Nat) : natToDecimal n ≠ "" := by
  by_cases h : n = 0
  · subst h; decide
  · cases n with
    | zero => exact absurd rfl h
    | succ m =>
      simp only [natToDecimal, if_neg h]
      intro heq
      have hdata := congrArg String.data heq
      simp only [toDigitsRevAux] at hdata
      simp at hdata

theorem genFileId_ne_empty (millis : Nat) (rand : String) :
    genFileId millis rand ≠ "" := by
  intro h
  have hdata := congrArg String.data h
  rw [genFileId, string_data_append] at hdata
  have : (natToDecimal millis).data = [] := by
    have := List.append_eq_nil.mp hdata
    exact this.1
  exact natToDecimal_ne_empty millis (string_eq_of_data _ _ this)

theorem genFileId_inj (m1 m2 : Nat) (r1 r2 : String)
    (hlen : r1.length = r2.length)
    (h : genFileId m1 r1 = genFileId m2 r2) : m1 = m2 ∧ r1 = r2 := by
  have hdata := congrArg String.data h
  rw [genFileId, genFileId, string_data_append, string_data_append] at hdata
  have hl : r1.data.length = r2.data.length := hlen
  obtain ⟨h1, h2⟩ := List.append_inj' hdata hl
  exact ⟨natToDecimal_injective (string_eq_of_data _ _ h1), string_eq_of_data _ _ h2⟩

/-! Claim theorems. -/

/-- C1: for a subject whose files list has pairwise distinct ids and
contains a file with the requested id, the variant 1 delete-file
request answers 200 and the stored files list afterwards is exactly the
original list with the one file of that id filtered out, every other
file kept unchanged in its original relative order. -/
theorem C1_deleteFile_removes_exactly (s : Store) (subjectId fileId : String)
    (subj : Subject) (hget : getDoc s subjectId = some subj)
    (hnodup : (subj.files.map FileDoc.id).Nodup)
    (hmem : ∃ f ∈ subj.files, f.id = fileId) :
    (deleteFile s subjectId fileId).status = 200 ∧
    getDoc (deleteFile s subjectId fileId).store subjectId =
      some { subj with files := subj.files.filter (fun f => f.id != fileId) } := by
  obtain ⟨f0, hf0mem, hf0id⟩ := hmem
  have hfind : ∃ w, subj.files.find? (fun f => f.id == fileId) = some w := by
    cases hw : subj.files.find? (fun f => f.id == fileId) with
    | some w => exact ⟨w, rfl⟩
    | none =>
      rw [List.find?_eq_none] at hw
      have := hw f0 hf0mem
      simp [hf0id] at this
  obtain ⟨w, hw⟩ := hfind
  have hwmem : w ∈ subj.files := List.mem_of_find?_eq_some hw
  have hwid : w.id = fileId := by simpa using List.find?_some hw
  have hfilter : arrayRemove subj.files w = subj.files.filter (fun f => f.id != fileId) := by
    unfold arrayRemove
    apply List.filter_congr
    intro g hg
    by_cases hgw : g = w
    · subst hgw; simp [hwid]
    · have hgid : g.id ≠ fileId := by
        intro hcontra
        exact hgw (List.inj_on_of_nodup_map hnodup hg hwmem (by rw [hcontra, hwid]))
      have hb1 : (g != w) = true := by simpa [bne_iff_ne] using hgw
      have hb2 : (g.id != fileId) = true := by simpa [bne_iff_ne] using hgid
      rw [hb1, hb2]
  refine ⟨by simp [deleteFile, hget, hw], ?_⟩
  simp only [deleteFile, hget, hw]
  rw [getDoc_updateField_self s subjectId _ subj hget, hfilter]

theorem C1_witness :
    (deleteFile [("s1", (⟨"s1", "Anatomy", [⟨"f1", "a", "x"⟩, ⟨"f2", "b", "y"⟩]⟩ : Subject))]
        "s1" "f1").status = 200 ∧
    getDoc (deleteFile [("s1", (⟨"s1", "Anatomy", [⟨"f1", "a", "x"⟩, ⟨"f2", "b", "y"⟩]⟩ : Subject))]
        "s1" "f1").store "s1" =
      some { (⟨"s1", "Anatomy", [⟨"f1", "a", "x"⟩, ⟨"f2", "b", "y"⟩]⟩ : Subject) with
        files := [(⟨"f1", "a", "x"⟩ : FileDoc), ⟨"f2", "b", "y"⟩].filter (fun f => f.id != "f1") } :=
  C1_deleteFile_removes_exactly _ "s1" "f1"
    ⟨"s1", "Anatomy", [⟨"f1", "a", "x"⟩, ⟨"f2", "b", "y"⟩]⟩
    (by decide) (by decide) (by decide)

/-- C2: the variant 1 create-subject request answers 400 and leaves the
store untouched when the body name is missing, not a string, or trims
to the empty string; otherwise it answers 201 with a subject carrying
the server-generated id, the trimmed name and no files, and stores it
under that id. -/
theorem C2_createSubject_validates (s : Store) (fresh : String) (name : Option Json) :
    ((∀ nm : String, name ≠ some (.str nm)) → createSubject s fresh name = ⟨400, s, none⟩) ∧
    (∀ nm : String, name = some (.str nm) → jsTrim nm = "" →
      createSubject s fresh name = ⟨400, s, none⟩) ∧
    (∀ nm : String, name = some (.str nm) → jsTrim nm ≠ "" →
      createSubject s fresh name =
        ⟨201, setDoc s fresh ⟨fresh, jsTrim nm, []⟩, some ⟨fresh, jsTrim nm, []⟩⟩ ∧
      getDoc (createSubject s fresh name).store fresh = some ⟨fresh, jsTrim nm, []⟩) := by
  refine ⟨?_, ?_, ?_⟩
  · intro hns
    cases name with
    | none => rfl
    | some v =>
      cases v with
      | str nm => exact absurd rfl (hns nm)
      | num n => rfl
      | bool b => rfl
      | null => rfl
      | arr xs => rfl
      | obj kvs => rfl
  · intro nm h htrim
    subst h
    simp [createSubject, htrim]
  · intro nm h htrim
    subst h
    refine ⟨by simp [createSubject, htrim], ?_⟩
    simp [createSubject, htrim, getDoc_setDoc_self]

theorem C2_witness :
    createSubject [] "k1" (some (.str "  Oral Biology ")) =
      ⟨201, setDoc [] "k1" ⟨"k1", "Oral Biology", []⟩, some ⟨"k1", "Oral Biology", []⟩⟩ ∧
    createSubject [] "k1" none = (⟨400, [], none⟩ : OpResP Store Subject) ∧
    createSubject [] "k1" (some (.str "   ")) = (⟨400, [], none⟩ : OpResP Store Subject) := by
  refine ⟨?_, ?_, ?_⟩
  · have h := (C2_createSubject_validates [] "k1" (some (.str "  Oral Biology "))).2.2
      "  Oral Biology " rfl (by decide)
    simpa using h.1
  · exact ((C2_createSubject_validates [] "k1" none).1 (fun nm h => by cases h))
  · exact ((C2_createSubject_validates [] "k1" (some (.str "   "))).2.1 "   " rfl (by decide))

/-- C3: a variant 1 delete-file request for a missing subject, or for a
subject none of whose stored files carries the requested id, answers
404 with the store exactly as before. -/
theorem C3_deleteFile_not_found (s : Store) (subjectId fileId : String) :
    (getDoc s subjectId = none → deleteFile s subjectId fileId = ⟨404, s⟩) ∧
    (∀ subj, getDoc s subjectId = some subj →
      (∀ f ∈ subj.files, f.id ≠ fileId) →
      deleteFile s subjectId fileId = ⟨404, s⟩) := by
  constructor
  · intro h
    simp [deleteFile, h]
  · intro subj hget hnone
    have hfind : subj.files.find? (fun f => f.id == fileId) = none := by
      rw [List.find?_eq_none]
      intro f hf
      simpa using hnone f hf
    simp [deleteFile, hget, hfind]

theorem C3_witness :
    deleteFile [("s1", (⟨"s1", "Anatomy", [⟨"f1", "a", "x"⟩]⟩ : Subject))] "s2" "f1" =
      ⟨404, [("s1", ⟨"s1", "Anatomy", [⟨"f1", "a", "x"⟩]⟩)]⟩ ∧
    deleteFile [("s1", (⟨"s1", "Anatomy", [⟨"f1", "a", "x"⟩]⟩ : Subject))] "s1" "zz" =
      ⟨404, [("s1", ⟨"s1", "Anatomy", [⟨"f1", "a", "x"⟩]⟩)]⟩ := by
  constructor
  · exact (C3_deleteFile_not_found [("s1", ⟨"s1", "Anatomy", [⟨"f1", "a", "x"⟩]⟩)] "s2" "f1").1
      (by decide)
  · exact (C3_deleteFile_not_found [("s1", ⟨"s1", "Anatomy", [⟨"f1", "a", "x"⟩]⟩)] "s1" "zz").2
      ⟨"s1", "Anatomy", [⟨"f1", "a", "x"⟩]⟩ (by decide) (by decide)

/-- C4: a variant 1 add-file request with non-empty name and content
answers 404 without writing when the subject is absent; when the
subject is present and the generated id is fresh for it, the request
answers 201 with the new file, and the stored files list afterwards is
the original list with the new file appended at the end. -/
theorem C4_addFile_appends (s : Store) (subjectId : String) (millis : Nat)
    (rand nm ct : String) (hnm : nm ≠ "") (hct : ct ≠ "") :
    (getDoc s subjectId = none →
      addFile s subjectId millis rand (some nm) (some ct) = ⟨404, s, none⟩) ∧
    (∀ subj, getDoc s subjectId = some subj →
      genFileId millis rand ∉ subj.files.map FileDoc.id →
      (addFile s subjectId millis rand (some nm) (some ct)).status = 201 ∧
      (addFile s subjectId millis rand (some nm) (some ct)).payload =
        some ⟨genFileId millis rand, nm, ct⟩ ∧
      getDoc (addFile s subjectId millis rand (some nm) (some ct)).store subjectId =
        some { subj with files := subj.files ++ [⟨genFileId millis rand, nm, ct⟩] }) := by
  constructor
  · intro h
    simp [addFile, hnm, hct, h]
  · intro subj hget hfresh
    have hnotmem : (⟨genFileId millis rand, nm, ct⟩ : FileDoc) ∉ subj.files := by
      intro hmem
      exact hfresh (List.mem_map_of_mem FileDoc.id hmem)
    have hunion : arrayUnion subj.files ⟨genFileId millis rand, nm, ct⟩ =
        subj.files ++ [⟨genFileId millis rand, nm, ct⟩] := by
      simp [arrayUnion, hnotmem]
    have hcond : ¬ ((nm == "" || ct == "") = true) := by simp [hnm, hct]
    refine ⟨by simp [addFile, hnm, hct, hget], by simp [addFile, hnm, hct, hget], ?_⟩
    simp only [addFile, hget]
    rw [if_neg hcond, getDoc_updateField_self s subjectId _ subj hget, hunion]

theorem C4_witness :
    addFile [("s1", (⟨"s1", "Anatomy", [⟨"f1", "a", "x"⟩]⟩ : Subject))] "s2" 7 "r7"
      (some "notes") (some "text") =
      ⟨404, [("s1", ⟨"s1", "Anatomy", [⟨"f1", "a", "x"⟩]⟩)], none⟩ ∧
    (addFile [("s1", (⟨"s1", "Anatomy", [⟨"f1", "a", "x"⟩]⟩ : Subject))] "s1" 7 "r7"
      (some "notes") (some "text")).status = 201 ∧
    getDoc (addFile [("s1", (⟨"s1", "Anatomy", [⟨"f1", "a", "x"⟩]⟩ : Subject))] "s1" 7 "r7"
      (some "notes") (some "text")).store "s1" =
      some ⟨"s1", "Anatomy", [⟨"f1", "a", "x"⟩, ⟨genFileId 7 "r7", "notes", "text"⟩]⟩ := by
  refine ⟨?_, ?_, ?_⟩
  · exact (C4_addFile_appends [("s1", ⟨"s1", "Anatomy", [⟨"f1", "a", "x"⟩]⟩)] "s2" 7 "r7"
      "notes" "text" (by decide) (by decide)).1 (by decide)
  · exact ((C4_addFile_appends [("s1", ⟨"s1", "Anatomy", [⟨"f1", "a", "x"⟩]⟩)] "s1" 7 "r7"
      "notes" "text" (by decide) (by decide)).2 ⟨"s1", "Anatomy", [⟨"f1", "a", "x"⟩]⟩
      (by decide) (by decide)).1
  · have h := ((C4_addFile_appends [("s1", ⟨"s1", "Anatomy", [⟨"f1", "a", "x"⟩]⟩)] "s1" 7 "r7"
      "notes" "text" (by decide) (by decide)).2 ⟨"s1", "Anatomy", [⟨"f1", "a", "x"⟩]⟩
      (by decide) (by decide)).2.2
    simpa using h

/-- C7: in the variant 1 delete-file operation the entry to remove is
the stored entry found by id, and removal happens by full structural
equality with that stored entry: the files list afterwards keeps
exactly the entries not structurally equal to it, so a stored entry
that shares the id but differs anywhere else survives. -/
theorem C7_deleteFile_structural_match (s : Store) (subjectId fileId : String)
    (subj : Subject) (w : FileDoc) (hget : getDoc s subjectId = some subj)
    (hfind : subj.files.find? (fun f => f.id == fileId) = some w) :
    getDoc (deleteFile s subjectId fileId).store subjectId =
      some { subj with files := subj.files.filter (fun f => f != w) } ∧
    (∀ g ∈ subj.files, g ≠ w →
      ∃ subj2, getDoc (deleteFile s subjectId fileId).store subjectId = some subj2 ∧
        g ∈ subj2.files) := by
  have hres : getDoc (deleteFile s subjectId fileId).store subjectId =
      some { subj with files := arrayRemove subj.files w } := by
    simp only [deleteFile, hget, hfind]
    exact getDoc_updateField_self s subjectId _ subj hget
  have harr : arrayRemove subj.files w = subj.files.filter (fun f => f != w) := rfl
  refine ⟨by rw [hres, harr], ?_⟩
  intro g hg hgw
  refine ⟨_, hres, ?_⟩
  show g ∈ arrayRemove subj.files w
  rw [harr, List.mem_filter]
  exact ⟨hg, by simpa [bne_iff_ne] using hgw⟩

theorem C7_witness :
    getDoc (deleteFile
        [("s1", (⟨"s1", "Anatomy", [⟨"f1", "a", "x"⟩, ⟨"f1", "a", "DIFFERENT"⟩]⟩ : Subject))]
        "s1" "f1").store "s1" =
      some { (⟨"s1", "Anatomy", [⟨"f1", "a", "x"⟩, ⟨"f1", "a", "DIFFERENT"⟩]⟩ : Subject) with
        files := [(⟨"f1", "a", "x"⟩ : FileDoc), ⟨"f1", "a", "DIFFERENT"⟩].filter
          (fun f => f != (⟨"f1", "a", "x"⟩ : FileDoc)) } ∧
    (∃ subj2, getDoc (deleteFile
        [("s1", (⟨"s1", "Anatomy", [⟨"f1", "a", "x"⟩, ⟨"f1", "a", "DIFFERENT"⟩]⟩ : Subject))]
        "s1" "f1").store "s1" = some subj2 ∧
      (⟨"f1", "a", "DIFFERENT"⟩ : FileDoc) ∈ subj2.files) := by
  have h := C7_deleteFile_structural_match
    [("s1", ⟨"s1", "Anatomy", [⟨"f1", "a", "x"⟩, ⟨"f1", "a", "DIFFERENT"⟩]⟩)] "s1" "f1"
    ⟨"s1", "Anatomy", [⟨"f1", "a", "x"⟩, ⟨"f1", "a", "DIFFERENT"⟩]⟩ ⟨"f1", "a", "x"⟩
    (by decide) (by decide)
  exact ⟨h.1, h.2 ⟨"f1", "a", "DIFFERENT"⟩ (by decide) (by decide)⟩

/-- C8: a variant 1 rename request whose body name is missing or the
empty string answers 400 and leaves the store untouched, so a listing
afterwards returns exactly what it returned before. -/
theorem C8_rename_empty_rejected (s : Store) (subjectId : String)
    (name : Option String) (h : name = none ∨ name = some "") :
    renameSubject s subjectId name = ⟨400, s⟩ ∧
    (listSubjects (renameSubject s subjectId name).store).body = (listSubjects s).body := by
  rcases h with h | h <;> subst h
  · exact ⟨rfl, rfl⟩
  · exact ⟨by simp [renameSubject], by simp [renameSubject]⟩

theorem C8_witness :
    renameSubject [("s1", (⟨"s1", "Anatomy", []⟩ : Subject))] "s1" (some "") =
      ⟨400, [("s1", ⟨"s1", "Anatomy", []⟩)]⟩ ∧
    (listSubjects (renameSubject [("s1", (⟨"s1", "Anatomy", []⟩ : Subject))] "s1" (some "")).store).body =
      (listSubjects [("s1", (⟨"s1", "Anatomy", []⟩ : Subject))]).body :=
  C8_rename_empty_rejected [("s1", ⟨"s1", "Anatomy", []⟩)] "s1" (some "") (Or.inr rfl)

/-- C5 counterexample: two calls with distinct timestamp/random draws
can still produce the same file id, because the decimal timestamp and
the suffix concatenate without a separator: millis 1 with suffix 23
collides with millis 12 with suffix 3. -/
theorem C5_counterexample :
    genFileId 1 "23" = genFileId 12 "3" ∧ ((1 : Nat), "23") ≠ ((12 : Nat), "3") := by
  constructor
  · decide
  · decide

/-- C5 amended: every generated file id is a non-empty string, and two
calls whose random suffixes have the same length (as the nine-character
suffixes drawn in practice do) produce distinct ids whenever their
timestamp/random draws differ. -/
theorem C5_amended_fileId_fresh (millis m2 : Nat) (rand r2 : String)
    (hlen : rand.length = r2.length) (hne : (millis, rand) ≠ (m2, r2)) :
    genFileId millis rand ≠ "" ∧ genFileId millis rand ≠ genFileId m2 r2 := by
  refine ⟨genFileId_ne_empty millis rand, fun h => ?_⟩
  obtain ⟨hm, hr⟩ := genFileId_inj millis m2 rand r2 hlen h
  exact hne (by rw [hm, hr])

theorem C5_witness :
    genFileId 5 "ab" ≠ "" ∧ genFileId 5 "ab" ≠ genFileId 7 "cd" :=
  C5_amended_fileId_fresh 5 7 "ab" "cd" (by decide) (by decide)

/-- The variant 2 sample subject is stored under the String() rendering
of its numeric id, the key 1. -/
theorem docKeyOf_sample : docKeyOf sampleSubject = "1" := by
  simp [docKeyOf, sampleSubject, getField, jsString, intToDecimal]
  decide

/-- C9: a variant 2 listing that finds the store empty answers 200 with
the hard-coded sample list rather than an empty list, and writes the
sample subject, id 1 and name Anatomy with two files, into the store
under key 1, so the first successful listing itself mutates the store. -/
theorem C9_list2_seeds_sample :
    list2 [] = ⟨200, [sampleSubject], [("1", sampleSubject)]⟩ ∧
    (list2 []).body ≠ [] ∧
    (list2 []).store ≠ [] ∧
    getField sampleSubject "id" = some (.num 1) ∧
    getField sampleSubject "name" = some (.str "Anatomy") ∧
    (∃ fs, getField sampleSubject "files" = some (.arr fs) ∧ fs.length = 2) := by
  have hkey : list2 [] = ⟨200, [sampleSubject], [("1", sampleSubject)]⟩ := by
    simp [list2, initialSubjects, setDoc, docKeyOf_sample]
  refine ⟨hkey, by rw [hkey]; simp, by rw [hkey]; simp, rfl, rfl, ?_⟩
  exact ⟨_, rfl, rfl⟩

/-- C10: in both variants a delete-subject request for an id with no
stored document still answers its success status, 200 in variant 1 and
204 in variant 2, with the store unchanged; and the status never
depends on existence, since no existence check precedes the delete. -/
theorem C10_delete_missing_succeeds (s : Store) (s2 : StoreOf Json) (id1 id2 : String)
    (h1 : getDoc s id1 = none) (h2 : getDoc s2 id2 = none) :
    deleteSubject s id1 = ⟨200, s⟩ ∧ delete2 s2 id2 = ⟨204, s2⟩ ∧
    (∀ (t : Store) (k : String), (deleteSubject t k).status = 200) ∧
    (∀ (t2 : StoreOf Json) (k : String), (delete2 t2 k).status = 204) := by
  refine ⟨?_, ?_, fun t k => rfl, fun t2 k => rfl⟩
  · show OpRes.mk 200 (deleteDoc s id1) = ⟨200, s⟩
    rw [deleteDoc_absent s id1 h1]
  · show OpRes.mk 204 (deleteDoc s2 id2) = ⟨204, s2⟩
    rw [deleteDoc_absent s2 id2 h2]

theorem C10_witness :
    deleteSubject [("s1", (⟨"s1", "Anatomy", []⟩ : Subject))] "ghost" =
      ⟨200, [("s1", ⟨"s1", "Anatomy", []⟩)]⟩ ∧
    delete2 [("1", Json.null)] "ghost" = ⟨204, [("1", Json.null)]⟩ ∧
    (∀ (t : Store) (k : String), (deleteSubject t k).status = 200) ∧
    (∀ (t2 : StoreOf Json) (k : String), (delete2 t2 k).status = 204) :=
  C10_delete_missing_succeeds [("s1", ⟨"s1", "Anatomy", []⟩)] [("1", Json.null)]
    "ghost" "ghost" (by decide) (by simp [getDoc])

/-- C6: write effects are confined to one document per request.  For
every handler of both variants, every document other than the single
one named by the request path, created by the request, or seeded by the
empty-store listing of variant 2, reads back exactly as before. -/
theorem C6_writes_confined :
    (∀ (s : Store) (k' : String), getDoc (listSubjects s).store k' = getDoc s k') ∧
    (∀ (s : Store) (fresh : String) (name : Option Json) (k' : String), k' ≠ fresh →
      getDoc (createSubject s fresh name).store k' = getDoc s k') ∧
    (∀ (s : Store) (subjectId : String) (name : Option String) (k' : String),
      k' ≠ subjectId →
      getDoc (renameSubject s subjectId name).store k' = getDoc s k') ∧
    (∀ (s : Store) (subjectId k' : String), k' ≠ subjectId →
      getDoc (deleteSubject s subjectId).store k' = getDoc s k') ∧
    (∀ (s : Store) (subjectId : String) (millis : Nat) (rand : String)
      (name content : Option String) (k' : String), k' ≠ subjectId →
      getDoc (addFile s subjectId millis rand name content).store k' = getDoc s k') ∧
    (∀ (s : Store) (subjectId fileId k' : String), k' ≠ subjectId →
      getDoc (deleteFile s subjectId fileId).store k' = getDoc s k') ∧
    (∀ (s2 : StoreOf Json) (k' : String), k' ≠ "1" →
      getDoc (list2 s2).store k' = getDoc s2 k') ∧
    (∀ (s2 : StoreOf Json) (body : Json) (k' : String), k' ≠ docKeyOf body →
      getDoc (create2 s2 body).store k' = getDoc s2 k') ∧
    (∀ (s2 : StoreOf Json) (subjectId : String) (body : Option Json) (k' : String),
      k' ≠ subjectId →
      getDoc (put2 s2 subjectId body).store k' = getDoc s2 k') ∧
    (∀ (s2 : StoreOf Json) (subjectId k' : String), k' ≠ subjectId →
      getDoc (delete2 s2 subjectId).store k' = getDoc s2 k') := by
  refine ⟨?_, ?_, ?_, ?_, ?_, ?_, ?_, ?_, ?_, ?_⟩
  · intro s k'
    rfl
  · intro s fresh name k' hk
    cases name with
    | none => rfl
    | some v =>
      cases v with
      | str nm =>
        by_cases ht : jsTrim nm = ""
        · simp [createSubject, ht]
        · simp [createSubject, ht, getDoc_setDoc_ne s fresh k' _ hk]
      | num n => rfl
      | bool b => rfl
      | null => rfl
      | arr xs => rfl
      | obj kvs => rfl
  · intro s subjectId name k' hk
    cases name with
    | none => rfl
    | some nm =>
      by_cases hn : nm = ""
      · simp [renameSubject, hn]
      · cases hget : getDoc s subjectId with
        | none => simp [renameSubject, hn, hget]
        | some subj => simp [renameSubject, hn, hget, getDoc_updateField_ne s subjectId k' _ hk]
  · intro s subjectId k' hk
    exact getDoc_deleteDoc_ne s subjectId k' hk
  · intro s subjectId millis rand name content k' hk
    cases name with
    | none => rfl
    | some nm =>
      cases content with
      | none => rfl
      | some ct =>
        by_cases hb : (nm == "" || ct == "") = true
        · simp [addFile, hb]
        · cases hget : getDoc s subjectId with
          | none => simp [addFile, hb, hget]
          | some subj => simp [addFile, hb, hget, getDoc_updateField_ne s subjectId k' _ hk]
  · intro s subjectId fileId k' hk
    cases hget : getDoc s subjectId with
    | none => simp [deleteFile, hget]
    | some subj =>
      cases hfind : subj.files.find? (fun f => f.id == fileId) with
      | none => simp [deleteFile, hget, hfind]
      | some w => simp [deleteFile, hget, hfind, getDoc_updateField_ne s subjectId k' _ hk]
  · intro s2 k' hk
    by_cases he : s2.isEmpty
    · simp [list2, he, initialSubjects, docKeyOf_sample, getDoc_setDoc_ne s2 "1" k' _ hk]
    · simp [list2, he]
  · intro s2 body k' hk
    by_cases hv : (!jTruthy body || !jTruthyOpt (getField body "name")
        || !jTruthyOpt (getField body "id")) = true
    · simp [create2, hv]
    · simp [create2, hv, getDoc_setDoc_ne s2 (docKeyOf body) k' _ hk]
  · intro s2 subjectId body k' hk
    cases body with
    | none => rfl
    | some b =>
      by_cases hv : jTruthy b
      · simp [put2, hv, getDoc_setDoc_ne s2 subjectId k' _ hk]
      · simp [put2, hv]
  · intro s2 subjectId k' hk
    exact getDoc_deleteDoc_ne s2 subjectId k' hk

theorem C6_witness :
    getDoc (createSubject [] "k1" (some (.str "Histology"))).store "k2" =
      getDoc ([] : Store) "k2" ∧
    getDoc (deleteFile [("s1", (⟨"s1", "Anatomy", [⟨"f1", "a", "x"⟩]⟩ : Subject))]
      "s1" "f1").store "s9" =
      getDoc [("s1", (⟨"s1", "Anatomy", [⟨"f1", "a", "x"⟩]⟩ : Subject))] "s9" ∧
    getDoc (list2 []).store "777" = getDoc ([] : StoreOf Json) "777" :=
  ⟨C6_writes_confined.2.1 [] "k1" (some (.str "Histology")) "k2" (by decide),
   C6_writes_confined.2.2.2.2.2.1 [("s1", ⟨"s1", "Anatomy", [⟨"f1", "a", "x"⟩]⟩)]
     "s1" "f1" "s9" (by decide),
   C6_writes_confined.2.2.2.2.2.2.1 [] "777" (by decide)⟩

end Dentalec
